import Mathlib

/-!
Verification of the study-app server (Express routes, in-memory storage,
WebSocket chat relay) against its specification.  The definitions below are a
shallow embedding of the TypeScript sources:

* `src/shared/schema.ts`  — entity record shapes;
* `src/server/storage.ts` — the `MemStorage` class (JS `Map` per entity);
* the route/relay module  — HTTP handlers and the `wss.on` message handler.

JS `Map` objects are modelled as insertion-ordered association lists,
JSON values as the `JsVal` inductive, timestamps (`Date`) as `Nat`
(milliseconds since the epoch), and exceptions as `Option`/sum results.
External collaborators (the OpenAI/Anthropic SDK calls and the JSON.parse
builtin) are passed in as oracle functions.
-/

/-- A JSON value, as produced by JSON.parse and stored in jsonb columns. -/
inductive JsVal where
  | null
  | bool (b : Bool)
  | num (n : Int)
  | str (s : String)
  | arr (elems : List JsVal)
  | obj (fields : List (String × JsVal))

/-- JS truthiness of a value (`undefined` is handled at use sites as `Option.none`). -/
def jsTruthy : JsVal → Bool
  | .null => false
  | .bool b => b
  | .num n => !(n == 0)
  | .str s => !(s == "")
  | .arr _ => true
  | .obj _ => true

/-- Property access `v[k]` on a JSON value: `none` models `undefined`. -/
def jsGet : JsVal → String → Option JsVal
  | .obj fields, k => (fields.find? (fun p => p.1 == k)).map (·.2)
  | _, _ => none

/-- JS `x || d` where `x` may be `undefined` (`none`). -/
def jsOrElse (v : Option JsVal) (d : JsVal) : JsVal :=
  match v with
  | some j => if jsTruthy j then j else d
  | none => d

/-- JS strict equality `===` between two parsed JSON values.  Primitives
compare by value; arrays and objects compare by reference, and two values
coming from separate parses are never the same reference, so they compare
unequal. -/
def jsStrictEq : JsVal → JsVal → Bool
  | .null, .null => true
  | .bool a, .bool b => a == b
  | .num a, .num b => a == b
  | .str a, .str b => a == b
  | _, _ => false

/-- JS `v.length` as used on `quiz.questions as any[]`: array length (and
string length); other values give `undefined` or throw in JS, which is
outside every verified path and modelled as `0`. -/
def jsLength : JsVal → Nat
  | .arr elems => elems.length
  | .str s => s.length
  | _ => 0

/-- JS `String.prototype.startsWith`, modelled on the character list. -/
def jsStartsWith (s p : String) : Bool :=
  p.data.isPrefixOf s.data

/-- A JS `Map` keyed by record identifiers: an insertion-ordered association
list.  `set` on an existing key overwrites in place; on a fresh key it
appends.  `values()` iterates in insertion order. -/
abbrev JsMap (α : Type) : Type := List (String × α)

def mapGet {α} (m : JsMap α) (k : String) : Option α :=
  (List.find? (fun p => p.1 == k) m).map (·.2)

def mapSet {α} (m : JsMap α) (k : String) (v : α) : JsMap α :=
  if List.any m (fun p => p.1 == k) then
    List.map (fun p => if p.1 == k then (k, v) else p) m
  else
    m ++ [(k, v)]

def mapDelete {α} (m : JsMap α) (k : String) : JsMap α :=
  List.filter (fun p => !(p.1 == k)) m

def mapValues {α} (m : JsMap α) : List α :=
  List.map (·.2) m

/-! Entity records, as shaped by `shared/schema.ts` and populated by
`MemStorage`.  Nullable columns are `Option`; `jsonb` columns are `JsVal`. -/

structure User where
  id : String
  username : String
  password : String
  email : Option String
  avatar : Option String
  createdAt : Nat

structure Conversation where
  id : String
  userId : String
  title : String
  model : String
  createdAt : Nat
  updatedAt : Option Nat

structure Message where
  id : String
  conversationId : String
  role : String
  content : String
  attachments : Option JsVal
  createdAt : Nat

structure FlashcardSet where
  id : String
  userId : String
  title : String
  description : Option String
  subject : Option String
  createdAt : Nat
  updatedAt : Option Nat

structure Flashcard where
  id : String
  setId : String
  front : String
  back : String
  difficulty : Int
  lastReviewed : Option Nat
  reviewCount : Int
  masteryLevel : Int
  createdAt : Nat

structure Note where
  id : String
  userId : String
  title : String
  content : String
  subject : Option String
  tags : Option (List String)
  createdAt : Nat
  updatedAt : Option Nat

structure Quiz where
  id : String
  userId : String
  title : JsVal
  subject : String
  difficulty : String
  questions : JsVal
  createdAt : Nat

structure QuizAttempt where
  id : String
  quizId : String
  userId : String
  answers : List JsVal
  score : Nat
  totalQuestions : Nat
  completedAt : Nat

structure VideoGeneration where
  id : String
  userId : String
  prompt : String
  duration : Int
  style : String
  aspectRatio : String
  status : String
  videoUrl : Option String
  thumbnailUrl : Option String
  createdAt : Nat
  completedAt : Option Nat

/-! Insert payloads (the `InsertX` zod-validated shapes). -/

structure InsertMessage where
  conversationId : String
  role : String
  content : String
  attachments : Option JsVal

structure InsertQuiz where
  userId : String
  title : JsVal
  subject : String
  difficulty : String
  questions : JsVal

structure InsertQuizAttempt where
  quizId : String
  userId : String
  answers : List JsVal
  score : Nat
  totalQuestions : Nat

structure InsertVideoGeneration where
  userId : String
  prompt : String
  duration : Int
  style : String
  aspectRatio : String

/-! Update payloads: `Partial<X>` objects spread over the existing record by
`{ ...existing, ...updates }`, so every field may be supplied, including the
identifier and the creation instant. -/

structure ConversationPatch where
  id : Option String := none
  userId : Option String := none
  title : Option String := none
  model : Option String := none
  createdAt : Option Nat := none
  updatedAt : Option (Option Nat) := none

structure FlashcardSetPatch where
  id : Option String := none
  userId : Option String := none
  title : Option String := none
  description : Option (Option String) := none
  subject : Option (Option String) := none
  createdAt : Option Nat := none
  updatedAt : Option (Option Nat) := none

structure NotePatch where
  id : Option String := none
  userId : Option String := none
  title : Option String := none
  content : Option String := none
  subject : Option (Option String) := none
  tags : Option (Option (List String)) := none
  createdAt : Option Nat := none
  updatedAt : Option (Option Nat) := none

structure FlashcardPatch where
  id : Option String := none
  setId : Option String := none
  front : Option String := none
  back : Option String := none
  difficulty : Option Int := none
  lastReviewed : Option (Option Nat) := none
  reviewCount : Option Int := none
  masteryLevel : Option Int := none
  createdAt : Option Nat := none

structure VideoGenerationPatch where
  id : Option String := none
  userId : Option String := none
  prompt : Option String := none
  duration : Option Int := none
  style : Option String := none
  aspectRatio : Option String := none
  status : Option String := none
  videoUrl : Option (Option String) := none
  thumbnailUrl : Option (Option String) := none
  createdAt : Option Nat := none
  completedAt : Option (Option Nat) := none

/-- The `MemStorage` state: one JS `Map` per entity type. -/
structure Store where
  users : JsMap User
  conversations : JsMap Conversation
  messages : JsMap Message
  flashcardSets : JsMap FlashcardSet
  flashcards : JsMap Flashcard
  notes : JsMap Note
  quizzes : JsMap Quiz
  quizAttempts : JsMap QuizAttempt
  videoGenerations : JsMap VideoGeneration

/-- The demo user id hard-wired into every route handler. -/
def defaultUserId : String := "default-user"

/-! `MemStorage` operations.  Fresh identifiers (randomUUID) and the current
instant (new Date) are external inputs, passed as explicit arguments. -/

def getConversation (s : Store) (id : String) : Option Conversation :=
  mapGet s.conversations id

def getNote (s : Store) (id : String) : Option Note :=
  mapGet s.notes id

def getQuiz (s : Store) (id : String) : Option Quiz :=
  mapGet s.quizzes id

def getVideoGeneration (s : Store) (id : String) : Option VideoGeneration :=
  mapGet s.videoGenerations id

/-- Sort key used by the owner-scoped listings: `updatedAt || createdAt`
(a Date object is always truthy, `null` falls through to `createdAt`). -/
def updatedOrCreated (updatedAt : Option Nat) (createdAt : Nat) : Nat :=
  updatedAt.getD createdAt

def convKey (c : Conversation) : Nat := updatedOrCreated c.updatedAt c.createdAt

def setKey (s : FlashcardSet) : Nat := updatedOrCreated s.updatedAt s.createdAt

def noteKey (n : Note) : Nat := updatedOrCreated n.updatedAt n.createdAt

/-- JS `Array.prototype.sort` with comparator `keyOf b - keyOf a`: a stable sort
that is non-increasing in the key, modelled by the stable `List.mergeSort`. -/
def jsSortByKeyDesc {α : Type} (keyOf : α → Nat) (l : List α) : List α :=
  l.mergeSort (fun a b => decide (keyOf b ≤ keyOf a))

def getUserConversations (s : Store) (userId : String) : List Conversation :=
  jsSortByKeyDesc convKey
    ((mapValues s.conversations).filter (fun c => c.userId == userId))

def getUserFlashcardSets (s : Store) (userId : String) : List FlashcardSet :=
  jsSortByKeyDesc setKey
    ((mapValues s.flashcardSets).filter (fun c => c.userId == userId))

def getUserNotes (s : Store) (userId : String) : List Note :=
  jsSortByKeyDesc noteKey
    ((mapValues s.notes).filter (fun c => c.userId == userId))

def getUserQuizzes (s : Store) (userId : String) : List Quiz :=
  jsSortByKeyDesc Quiz.createdAt
    ((mapValues s.quizzes).filter (fun c => c.userId == userId))

def createMessage (s : Store) (id : String) (now : Nat) (ins : InsertMessage) :
    Message × Store :=
  let m : Message :=
    { id := id, conversationId := ins.conversationId, role := ins.role,
      content := ins.content, attachments := ins.attachments, createdAt := now }
  (m, { s with messages := mapSet s.messages id m })

def createQuiz (s : Store) (id : String) (now : Nat) (ins : InsertQuiz) :
    Quiz × Store :=
  let q : Quiz :=
    { id := id, userId := ins.userId, title := ins.title, subject := ins.subject,
      difficulty := ins.difficulty, questions := ins.questions, createdAt := now }
  (q, { s with quizzes := mapSet s.quizzes id q })

def createQuizAttempt (s : Store) (id : String) (now : Nat)
    (ins : InsertQuizAttempt) : QuizAttempt × Store :=
  let a : QuizAttempt :=
    { id := id, quizId := ins.quizId, userId := ins.userId, answers := ins.answers,
      score := ins.score, totalQuestions := ins.totalQuestions, completedAt := now }
  (a, { s with quizAttempts := mapSet s.quizAttempts id a })

def createVideoGeneration (s : Store) (id : String) (now : Nat)
    (ins : InsertVideoGeneration) : VideoGeneration × Store :=
  let v : VideoGeneration :=
    { id := id, userId := ins.userId, prompt := ins.prompt, duration := ins.duration,
      style := ins.style, aspectRatio := ins.aspectRatio, status := "pending",
      videoUrl := none, thumbnailUrl := none, createdAt := now, completedAt := none }
  (v, { s with videoGenerations := mapSet s.videoGenerations id v })

/-- Update of a conversation, `updateConversation`: throws (modelled `none`) when the id is absent;
otherwise `{ ...existing, ...updates, updatedAt: new Date() }` is stored back
under the same map key.  The trailing `updatedAt` assignment wins over any
`updatedAt` carried by the patch. -/
def updateConversation (s : Store) (id : String) (p : ConversationPatch)
    (now : Nat) : Option (Conversation × Store) :=
  match mapGet s.conversations id with
  | none => none
  | some existing =>
    let updated : Conversation :=
      { id := p.id.getD existing.id, userId := p.userId.getD existing.userId,
        title := p.title.getD existing.title, model := p.model.getD existing.model,
        createdAt := p.createdAt.getD existing.createdAt, updatedAt := some now }
    some (updated, { s with conversations := mapSet s.conversations id updated })

def updateFlashcardSet (s : Store) (id : String) (p : FlashcardSetPatch)
    (now : Nat) : Option (FlashcardSet × Store) :=
  match mapGet s.flashcardSets id with
  | none => none
  | some existing =>
    let updated : FlashcardSet :=
      { id := p.id.getD existing.id, userId := p.userId.getD existing.userId,
        title := p.title.getD existing.title,
        description := p.description.getD existing.description,
        subject := p.subject.getD existing.subject,
        createdAt := p.createdAt.getD existing.createdAt, updatedAt := some now }
    some (updated, { s with flashcardSets := mapSet s.flashcardSets id updated })

def updateNote (s : Store) (id : String) (p : NotePatch) (now : Nat) :
    Option (Note × Store) :=
  match mapGet s.notes id with
  | none => none
  | some existing =>
    let updated : Note :=
      { id := p.id.getD existing.id, userId := p.userId.getD existing.userId,
        title := p.title.getD existing.title,
        content := p.content.getD existing.content,
        subject := p.subject.getD existing.subject,
        tags := p.tags.getD existing.tags,
        createdAt := p.createdAt.getD existing.createdAt, updatedAt := some now }
    some (updated, { s with notes := mapSet s.notes id updated })

/-- Update of a flashcard, `updateFlashcard`, is a bare `{ ...existing, ...updates }`: flashcards have
no updated instant. -/
def updateFlashcard (s : Store) (id : String) (p : FlashcardPatch) :
    Option (Flashcard × Store) :=
  match mapGet s.flashcards id with
  | none => none
  | some existing =>
    let updated : Flashcard :=
      { id := p.id.getD existing.id, setId := p.setId.getD existing.setId,
        front := p.front.getD existing.front, back := p.back.getD existing.back,
        difficulty := p.difficulty.getD existing.difficulty,
        lastReviewed := p.lastReviewed.getD existing.lastReviewed,
        reviewCount := p.reviewCount.getD existing.reviewCount,
        masteryLevel := p.masteryLevel.getD existing.masteryLevel,
        createdAt := p.createdAt.getD existing.createdAt }
    some (updated, { s with flashcards := mapSet s.flashcards id updated })

def updateVideoGeneration (s : Store) (id : String) (p : VideoGenerationPatch) :
    Option (VideoGeneration × Store) :=
  match mapGet s.videoGenerations id with
  | none => none
  | some existing =>
    let updated : VideoGeneration :=
      { id := p.id.getD existing.id, userId := p.userId.getD existing.userId,
        prompt := p.prompt.getD existing.prompt,
        duration := p.duration.getD existing.duration,
        style := p.style.getD existing.style,
        aspectRatio := p.aspectRatio.getD existing.aspectRatio,
        status := p.status.getD existing.status,
        videoUrl := p.videoUrl.getD existing.videoUrl,
        thumbnailUrl := p.thumbnailUrl.getD existing.thumbnailUrl,
        createdAt := p.createdAt.getD existing.createdAt,
        completedAt := p.completedAt.getD existing.completedAt }
    some (updated, { s with videoGenerations := mapSet s.videoGenerations id updated })

/-- Deletion, `deleteConversation`: drop the map entry, then drop every message whose
`conversationId` equals the deleted id. -/
def deleteConversation (s : Store) (id : String) : Store :=
  { s with
    conversations := mapDelete s.conversations id,
    messages := s.messages.filter (fun e => !(e.2.conversationId == id)) }

def deleteFlashcardSet (s : Store) (id : String) : Store :=
  { s with
    flashcardSets := mapDelete s.flashcardSets id,
    flashcards := s.flashcards.filter (fun e => !(e.2.setId == id)) }

def deleteQuiz (s : Store) (id : String) : Store :=
  { s with
    quizzes := mapDelete s.quizzes id,
    quizAttempts := s.quizAttempts.filter (fun e => !(e.2.quizId == id)) }

/-! Route handlers.  HTTP outcomes carry the response body of the `res.json`
call; provider calls and JSON.parse are oracle parameters. -/

inductive HttpOutcome (α : Type) where
  | ok (body : α)
  | badRequest (message : String)
  | notFound (message : String)
  | serverError (message : String)

/-- Lookup `questions[index]` inside the scoring loop: array indexing, or string-key
property access when the stored jsonb is a plain object. -/
def questionAt (questions : JsVal) (i : Nat) : Option JsVal :=
  match questions with
  | .arr elems => elems.get? i
  | .obj fields => (fields.find? (fun p => p.1 == toString i)).map (·.2)
  | _ => none

/-- The `answers.forEach((answer, index) => ...)` scoring loop of the
quiz-attempt handler: count an answer iff the question at the same index
exists (and is truthy) and the answer is strictly equal to its
`correctAnswer` property. -/
def scoreLoop (questions : JsVal) : Nat → List JsVal → Nat
  | _, [] => 0
  | i, answer :: rest =>
    (match questionAt questions i with
     | some q =>
       if jsTruthy q then
         match jsGet q "correctAnswer" with
         | some c => if jsStrictEq answer c then 1 else 0
         | none => 0
       else 0
     | none => 0) + scoreLoop questions (i + 1) rest

/-- POST /api/quizzes/:id/attempts — fetch the quiz (404 when absent), score
the submitted answers against the stored question list, then persist the
attempt with `totalQuestions` taken from the question count at grading time. -/
def submitQuizAttempt (s : Store) (quizId : String) (answers : List JsVal)
    (attemptId : String) (now : Nat) : Option (QuizAttempt × Store) :=
  match getQuiz s quizId with
  | none => none
  | some quiz =>
    let score := scoreLoop quiz.questions 0 answers
    some (createQuizAttempt s attemptId now
      { quizId := quizId, userId := defaultUserId, answers := answers,
        score := score, totalQuestions := jsLength quiz.questions })

/-- The argument handed to JSON.parse: `content || "\x7b\x7d"` where the
provider content may be null (`none`) or empty. -/
def effectiveJson (reply : Option String) : String :=
  match reply with
  | some s => if s == "" then "\x7b\x7d" else s
  | none => "\x7b\x7d"

/-- POST /api/flashcards/generate — 400 on missing content; otherwise parse
the provider reply (a JSON.parse failure is caught by the handler and turned
into a 500) and answer `result.flashcards || []`.  The prompt construction
and the provider call are external; `reply` is the content the provider
returned (`none` models a null content). -/
def flashcardsGenerate (content : String) (reply : Option String)
    (parse : String → Option JsVal) : HttpOutcome JsVal :=
  if content == "" then .badRequest "Content is required"
  else
    match parse (effectiveJson reply) with
    | none => .serverError "Failed to generate flashcards"
    | some j => .ok (jsOrElse (jsGet j "flashcards") (.arr []))

/-- POST /api/quizzes/generate — 400 on missing subject; parse the provider
reply (parse failure caught as a 500, leaving the store untouched); persist a
quiz with `quizData.questions || []` and `quizData.title || subject+" Quiz"`. -/
def quizzesGenerate (s : Store) (subject difficulty : String)
    (reply : Option String) (parse : String → Option JsVal)
    (quizId : String) (now : Nat) : HttpOutcome Quiz × Store :=
  if subject == "" then (.badRequest "Subject is required", s)
  else
    match parse (effectiveJson reply) with
    | none => (.serverError "Failed to generate quiz", s)
    | some j =>
      let created := createQuiz s quizId now
        { userId := defaultUserId,
          title := jsOrElse (jsGet j "title") (.str (subject ++ " Quiz")),
          subject := subject, difficulty := difficulty,
          questions := jsOrElse (jsGet j "questions") (.arr []) }
      (.ok created.1, created.2)

/-- POST /api/notes/:id/enhance — 404 when the note is absent; otherwise the
enhanced content is `reply || note.content` and the note is updated with it
(the unreachable update failure maps to the catch-all 500). -/
def enhanceNote (s : Store) (noteId : String) (reply : Option String)
    (now : Nat) : HttpOutcome Note × Store :=
  match getNote s noteId with
  | none => (.notFound "Note not found", s)
  | some note =>
    let enhanced :=
      match reply with
      | some str => if str == "" then note.content else str
      | none => note.content
    match updateNote s noteId { content := some enhanced } now with
    | some (updated, s2) => (.ok updated, s2)
    | none => (.serverError "Failed to enhance note", s)

/-- The setTimeout callback of POST /api/video-generations: mark the record
completed with fabricated URLs; a failing update is swallowed by its catch. -/
def fireVideoCompletion (s : Store) (id : String) (now : Nat) : Store :=
  match updateVideoGeneration s id
    { status := some "completed",
      videoUrl := some (some ("https://example.com/videos/" ++ id ++ ".mp4")),
      thumbnailUrl := some (some ("https://example.com/thumbnails/" ++ id ++ ".jpg")),
      completedAt := some (some now) } with
  | some (_, s2) => s2
  | none => s

/-! The WebSocket chat relay. -/

/-- A provider completion call dispatched by the relay. -/
inductive ProviderCall where
  | openai (content : String)
  | anthropic (content : String)

/-- Frames the relay sends back on the socket. -/
inductive OutFrame where
  | typing (isTyping : Bool)
  | message (message : Message)
  | error (message : String)

/-- The fields the relay reads from a parsed inbound frame. -/
structure ChatFrame where
  type : String
  conversationId : String
  content : String
  role : String
  model : String
  attachments : Option JsVal

/-- Result of processing one inbound socket frame. -/
structure RelayStep where
  store : Store
  frames : List OutFrame
  calls : List ProviderCall

/-- Fallback used when a provider returns empty or null content. -/
def emptyReplyFallback : String := "Sorry, I couldn\x27t generate a response."

/-- Provider selection by model-name sniffing: gpt* calls OpenAI, claude*
calls Anthropic, anything else is the literal successful reply "Model not
supported".  The oracle returns the extracted reply content on success
(empty string models a null content) or the thrown error message. -/
def routeModel (model content : String)
    (provider : ProviderCall → Except String String) :
    Except String String × List ProviderCall :=
  if jsStartsWith model "gpt" then
    ((provider (.openai content)).map
      (fun str => if str == "" then emptyReplyFallback else str),
     [.openai content])
  else if jsStartsWith model "claude" then
    ((provider (.anthropic content)).map
      (fun str => if str == "" then emptyReplyFallback else str),
     [.anthropic content])
  else
    (.ok "Model not supported", [])

/-- The `ws.on message` handler for one frame.  `parsed` is the JSON.parse
outcome on the raw data (`none` models a parse failure, which the outer catch
only logs).  Frames of any other type fall through silently.  For a
chat_message frame: persist the inbound message with role hard-coded to
"user" and null attachments, emit the typing indicator, route the provider
call, then either persist and deliver the assistant reply or emit an error
frame, leaving the user message in place. -/
def wsHandleMessage (s : Store) (parsed : Option ChatFrame)
    (provider : ProviderCall → Except String String)
    (userMsgId assistantMsgId : String) (now : Nat) : RelayStep :=
  match parsed with
  | none => { store := s, frames := [], calls := [] }
  | some f =>
    if f.type == "chat_message" then
      let s1 := (createMessage s userMsgId now
        { conversationId := f.conversationId, role := "user",
          content := f.content, attachments := none }).2
      let routed := routeModel f.model f.content provider
      match routed.1 with
      | .ok aiResponse =>
        let saved := createMessage s1 assistantMsgId now
          { conversationId := f.conversationId, role := "assistant",
            content := aiResponse, attachments := none }
        { store := saved.2,
          frames := [.typing true, .typing false, .message saved.1],
          calls := routed.2 }
      | .error e =>
        { store := s1,
          frames := [.typing true, .error ("Failed to get AI response: " ++ e)],
          calls := routed.2 }
    else
      { store := s, frames := [], calls := [] }

/-! Question records: the shape the quiz-generation prompt instructs the
provider to emit and the quiz-attempt handler reads back (`type`, `question`,
`options`, `correctAnswer`, `explanation`). -/

structure Question where
  qtype : String
  question : String
  options : List String
  correctAnswer : JsVal
  explanation : String

/-- The JSON object carrying a question record. -/
def Question.toJson (q : Question) : JsVal :=
  .obj [("type", .str q.qtype), ("question", .str q.question),
        ("options", .arr (q.options.map .str)),
        ("correctAnswer", q.correctAnswer),
        ("explanation", .str q.explanation)]

/-! Concrete fixtures used to exercise the theorems on closed inputs. -/

def emptyStore : Store :=
  { users := [], conversations := [], messages := [], flashcardSets := [],
    flashcards := [], notes := [], quizzes := [], quizAttempts := [],
    videoGenerations := [] }

def sampleQuestion (c : Int) : Question :=
  { qtype := "multiple-choice", question := "pick one",
    options := ["A", "B", "C", "D"], correctAnswer := .num c,
    explanation := "because" }

def sampleQuiz : Quiz :=
  { id := "quiz1", userId := defaultUserId, title := .str "Sample",
    subject := "math", difficulty := "easy",
    questions := .arr ([sampleQuestion 0, sampleQuestion 1,
      sampleQuestion 2].map Question.toJson),
    createdAt := 0 }

def quizStore : Store := { emptyStore with quizzes := [("quiz1", sampleQuiz)] }

def sampleConversation : Conversation :=
  { id := "c1", userId := defaultUserId, title := "t", model := "gpt-5",
    createdAt := 0, updatedAt := some 0 }

def convStore : Store :=
  { emptyStore with conversations := [("c1", sampleConversation)] }

/-- A payload a client can legally send to PUT routes: the handlers pass
`req.body` straight through, so it may carry `id` and `createdAt`. -/
def idChangingPatch : ConversationPatch := { id := some "c2", createdAt := some 99 }

def sampleNote : Note :=
  { id := "n1", userId := defaultUserId, title := "nt", content := "original text",
    subject := none, tags := none, createdAt := 0, updatedAt := some 0 }

def noteStore : Store := { emptyStore with notes := [("n1", sampleNote)] }

/-- A minimal JSON.parse oracle: parses the empty object and rejects
everything else. -/
def parseStub : String → Option JsVal :=
  fun str => if str == "\x7b\x7d" then some (.obj []) else none

def sampleFrame : ChatFrame :=
  { type := "chat_message", conversationId := "c1", content := "hello",
    role := "assistant", model := "o3-mini", attachments := some (.str "f.png") }

def sampleInsertVideo : InsertVideoGeneration :=
  { userId := defaultUserId, prompt := "a cat", duration := 10,
    style := "anime", aspectRatio := "16:9" }

/-! Helper lemmas. -/

/-- A model name starting with "claude" cannot also start with "gpt". -/
theorem jsStartsWith_claude_not_gpt (s : String)
    (h : jsStartsWith s "claude" = true) : jsStartsWith s "gpt" = false := by
  unfold jsStartsWith at *
  cases hd : s.data with
  | nil => rw [hd] at h; simp [List.isPrefixOf] at h
  | cons c rest =>
    rw [hd] at h
    have hdata : "claude".data = ['c', 'l', 'a', 'u', 'd', 'e'] := rfl
    rw [hdata] at h
    simp only [List.isPrefixOf, Bool.and_eq_true, beq_iff_eq] at h
    obtain ⟨hc, -⟩ := h
    subst hc
    have hg : "gpt".data = ['g', 'p', 't'] := rfl
    have hgc : ('g' == 'c') = false := rfl
    rw [hg]
    simp [List.isPrefixOf, hgc]

/-- Setting a fresh key appends the new entry. -/
theorem mapSet_fresh {α} (m : JsMap α) (k : String) (v : α)
    (h : List.any m (fun p => p.1 == k) = false) :
    mapSet m k v = m ++ [(k, v)] := by
  simp [mapSet, h]

/-- After `set k v`, `get k` returns `v`. -/
theorem mapGet_mapSet_self {α} (m : JsMap α) (k : String) (v : α) :
    mapGet (mapSet m k v) k = some v := by
  unfold mapSet
  by_cases h : List.any m (fun p => p.1 == k) = true
  · rw [if_pos h]
    induction m with
    | nil => simp at h
    | cons e m ih =>
      by_cases he : e.1 == k
      · simp [mapGet, List.find?, he]
      · simp only [List.any_cons, he, Bool.false_or] at h
        simpa [mapGet, List.find?, he] using ih h
  · rw [if_neg h]
    have hn : List.find? (fun p => p.1 == k) m = none := by
      rw [List.find?_eq_none]
      intro x hx hpx
      exact h (List.any_eq_true.mpr ⟨x, hx, hpx⟩)
    simp [mapGet, List.find?_append, hn]

theorem jsGet_toJson_correctAnswer (q : Question) :
    jsGet (Question.toJson q) "correctAnswer" = some q.correctAnswer := rfl

theorem jsTruthy_toJson (q : Question) : jsTruthy (Question.toJson q) = true := rfl

/-- Scoring an answer list against a question array shifted by one. -/
theorem scoreLoop_arr_cons (q : JsVal) (l : List JsVal) (i : Nat)
    (answers : List JsVal) :
    scoreLoop (.arr (q :: l)) (i + 1) answers = scoreLoop (.arr l) i answers := by
  induction answers generalizing i with
  | nil => rfl
  | cons a rest ih =>
    simp only [scoreLoop, questionAt, List.get?_cons_succ]
    rw [ih]

/-- On a well-formed question array, the scoring loop counts exactly the
positions where the answer strictly equals the stored correct answer. -/
theorem scoreLoop_eq_countP (qs : List Question) (answers : List JsVal)
    (h : answers.length = qs.length) :
    scoreLoop (.arr (qs.map Question.toJson)) 0 answers
      = (answers.zip qs).countP (fun p => jsStrictEq p.1 p.2.correctAnswer) := by
  induction qs generalizing answers with
  | nil =>
    cases answers with
    | nil => rfl
    | cons a rest => simp at h
  | cons q qs ih =>
    cases answers with
    | nil => simp at h
    | cons a rest =>
      simp only [List.length_cons, Nat.succ.injEq] at h
      simp only [List.map_cons, scoreLoop, questionAt, List.get?_cons_zero,
        jsTruthy_toJson, if_true, jsGet_toJson_correctAnswer]
      rw [scoreLoop_arr_cons, ih rest h]
      simp only [List.zip_cons_cons, List.countP_cons]
      omega

/-! Lemmas about the stable descending-by-key sort. -/

theorem jsSortByKeyDesc_perm {α : Type} (keyOf : α → Nat) (l : List α) :
    (jsSortByKeyDesc keyOf l).Perm l :=
  List.mergeSort_perm l _

theorem jsSortByKeyDesc_sorted {α : Type} (keyOf : α → Nat) (l : List α) :
    (jsSortByKeyDesc keyOf l).Pairwise (fun a b => keyOf b ≤ keyOf a) := by
  have h : (l.mergeSort (fun a b => decide (keyOf b ≤ keyOf a))).Pairwise
      (fun a b => (decide (keyOf b ≤ keyOf a)) = true) := by
    apply List.sorted_mergeSort
    · intro a b c hab hbc
      simp only [decide_eq_true_eq] at *
      omega
    · intro a b
      simp only [Bool.or_eq_true, decide_eq_true_eq]
      omega
  exact h.imp (by simp)

/-- Stability: elements selected by a predicate that pins the sort key keep
their original relative order. -/
theorem jsSortByKeyDesc_stable {α : Type} (keyOf : α → Nat) (l : List α)
    (p : α → Bool) (hp : ∀ a b, p a = true → p b = true → keyOf a = keyOf b) :
    (jsSortByKeyDesc keyOf l).filter p = l.filter p := by
  unfold jsSortByKeyDesc
  have trans : ∀ a b c : α, (decide (keyOf b ≤ keyOf a))
      → (decide (keyOf c ≤ keyOf b)) → (decide (keyOf c ≤ keyOf a)) := by
    intro a b c hab hbc
    simp only [decide_eq_true_eq] at *
    omega
  have total : ∀ a b : α,
      (decide (keyOf b ≤ keyOf a)) || (decide (keyOf a ≤ keyOf b)) := by
    intro a b
    simp only [Bool.or_eq_true, decide_eq_true_eq]
    omega
  have hpw : (l.filter p).Pairwise
      (fun a b => (decide (keyOf b ≤ keyOf a)) = true) := by
    apply List.pairwise_of_forall_mem_list
    intro a ha b hb
    have hpa := (List.mem_filter.mp ha).2
    have hpb := (List.mem_filter.mp hb).2
    simp [hp a b hpa hpb]
  have hsub : List.Sublist (l.filter p)
      (l.mergeSort (fun a b => decide (keyOf b ≤ keyOf a))) :=
    List.sublist_mergeSort trans total hpw (List.filter_sublist l)
  have hperm : List.Perm
      ((l.mergeSort (fun a b => decide (keyOf b ≤ keyOf a))).filter p)
      (l.filter p) :=
    (List.mergeSort_perm l _).filter p
  have h2 : List.Sublist (l.filter p)
      ((l.mergeSort (fun a b => decide (keyOf b ≤ keyOf a))).filter p) := by
    have h3 := hsub.filter p
    have h4 : (l.filter p).filter p = l.filter p := by
      rw [List.filter_filter]
      simp
    rwa [h4] at h3
  exact (h2.eq_of_length hperm.length_eq.symm).symm

/-! Claim theorems. -/

/-- C1: on a quiz whose stored question list has N question records and a
submitted answer array of length N, the attempt-creation endpoint produces an
attempt whose score is the number of positions at which the answer equals the
stored correctAnswer of the question, and whose totalQuestions is N, the question
count at grading time. -/
theorem quizAttempt_scoring_correct (s : Store) (quizId : String)
    (quiz : Quiz) (qs : List Question) (answers : List JsVal)
    (attemptId : String) (now : Nat)
    (hq : getQuiz s quizId = some quiz)
    (hqs : quiz.questions = .arr (qs.map Question.toJson))
    (hlen : answers.length = qs.length) :
    (submitQuizAttempt s quizId answers attemptId now).map
        (fun r => (r.1.score, r.1.totalQuestions))
      = some ((answers.zip qs).countP (fun p => jsStrictEq p.1 p.2.correctAnswer),
          qs.length) := by
  simp only [submitQuizAttempt, hq, createQuizAttempt, Option.map_some']
  rw [hqs]
  simp [jsLength, scoreLoop_eq_countP qs answers hlen]

/-- Witness for C1: the spec example — correct answers [0,1,2], submitted
[0,1,1], giving score 2 of 3. -/
theorem quizAttempt_scoring_correct_witness :
    (submitQuizAttempt quizStore "quiz1" [.num 0, .num 1, .num 1] "att1" 7).map
        (fun r => (r.1.score, r.1.totalQuestions)) = some (2, 3) := by
  have h := quizAttempt_scoring_correct quizStore "quiz1" sampleQuiz
    [sampleQuestion 0, sampleQuestion 1, sampleQuestion 2]
    [.num 0, .num 1, .num 1] "att1" 7 rfl rfl rfl
  rw [h]
  rfl

/-- C4: each delete cascades to exactly the child records referencing the
deleted parent; the parent collection loses exactly the entry under the
deleted key; every other collection, and every child under a different
parent, is untouched. -/
theorem delete_cascades_exactly (s : Store) (id : String) :
    ((∀ e, e ∈ (deleteConversation s id).conversations
        ↔ e ∈ s.conversations ∧ ¬ e.1 = id) ∧
     (∀ e, e ∈ (deleteConversation s id).messages
        ↔ e ∈ s.messages ∧ ¬ e.2.conversationId = id) ∧
     (deleteConversation s id).users = s.users ∧
     (deleteConversation s id).flashcardSets = s.flashcardSets ∧
     (deleteConversation s id).flashcards = s.flashcards ∧
     (deleteConversation s id).notes = s.notes ∧
     (deleteConversation s id).quizzes = s.quizzes ∧
     (deleteConversation s id).quizAttempts = s.quizAttempts ∧
     (deleteConversation s id).videoGenerations = s.videoGenerations) ∧
    ((∀ e, e ∈ (deleteFlashcardSet s id).flashcardSets
        ↔ e ∈ s.flashcardSets ∧ ¬ e.1 = id) ∧
     (∀ e, e ∈ (deleteFlashcardSet s id).flashcards
        ↔ e ∈ s.flashcards ∧ ¬ e.2.setId = id) ∧
     (deleteFlashcardSet s id).users = s.users ∧
     (deleteFlashcardSet s id).conversations = s.conversations ∧
     (deleteFlashcardSet s id).messages = s.messages ∧
     (deleteFlashcardSet s id).notes = s.notes ∧
     (deleteFlashcardSet s id).quizzes = s.quizzes ∧
     (deleteFlashcardSet s id).quizAttempts = s.quizAttempts ∧
     (deleteFlashcardSet s id).videoGenerations = s.videoGenerations) ∧
    ((∀ e, e ∈ (deleteQuiz s id).quizzes ↔ e ∈ s.quizzes ∧ ¬ e.1 = id) ∧
     (∀ e, e ∈ (deleteQuiz s id).quizAttempts
        ↔ e ∈ s.quizAttempts ∧ ¬ e.2.quizId = id) ∧
     (deleteQuiz s id).users = s.users ∧
     (deleteQuiz s id).conversations = s.conversations ∧
     (deleteQuiz s id).messages = s.messages ∧
     (deleteQuiz s id).flashcardSets = s.flashcardSets ∧
     (deleteQuiz s id).flashcards = s.flashcards ∧
     (deleteQuiz s id).notes = s.notes ∧
     (deleteQuiz s id).videoGenerations = s.videoGenerations) := by
  refine ⟨⟨?_, ?_, rfl, rfl, rfl, rfl, rfl, rfl, rfl⟩,
    ⟨?_, ?_, rfl, rfl, rfl, rfl, rfl, rfl, rfl⟩,
    ⟨?_, ?_, rfl, rfl, rfl, rfl, rfl, rfl, rfl⟩⟩ <;>
    intro e <;>
    simp [deleteConversation, deleteFlashcardSet, deleteQuiz, mapDelete,
      List.mem_filter]

/-- Counterexample to C5 as stated: the PUT handlers pass the request body
straight into the update, and `{ ...existing, ...updates }` lets the payload
overwrite the identifier and the creation instant.  A successful update with
payload `{id: "c2", createdAt: 99}` on the stored conversation "c1" returns a
record whose id and createdAt have changed. -/
theorem update_payload_changes_identity :
    (updateConversation convStore "c1" idChangingPatch 5).map
        (fun r => (r.1.id, r.1.createdAt)) = some ("c2", 99) ∧
    sampleConversation.id = "c1" ∧ sampleConversation.createdAt = 0 ∧
    ¬ (("c2", 99) = (("c1" : String), (0 : Nat))) := by
  refine ⟨rfl, rfl, rfl, ?_⟩
  intro h
  exact absurd (congrArg Prod.fst h) (by decide)

/-- C5 (amended): for update payloads that do not themselves carry an `id` or
`createdAt` field, a successful update preserves the identifier and
creation instant, and sets the updated instant to the update time for the
entity types that have one (conversations, flashcard sets, notes; flashcards
have none and keep all unpatched fields). -/
theorem update_preserves_identity_and_creation (s : Store) (id : String)
    (now : Nat) :
    (∀ (p : ConversationPatch) e, mapGet s.conversations id = some e →
      p.id = none → p.createdAt = none →
      (updateConversation s id p now).map
          (fun r => (r.1.id, r.1.createdAt, r.1.updatedAt))
        = some (e.id, e.createdAt, some now)) ∧
    (∀ (p : FlashcardSetPatch) e, mapGet s.flashcardSets id = some e →
      p.id = none → p.createdAt = none →
      (updateFlashcardSet s id p now).map
          (fun r => (r.1.id, r.1.createdAt, r.1.updatedAt))
        = some (e.id, e.createdAt, some now)) ∧
    (∀ (p : NotePatch) e, mapGet s.notes id = some e →
      p.id = none → p.createdAt = none →
      (updateNote s id p now).map
          (fun r => (r.1.id, r.1.createdAt, r.1.updatedAt))
        = some (e.id, e.createdAt, some now)) ∧
    (∀ (p : FlashcardPatch) e, mapGet s.flashcards id = some e →
      p.id = none → p.createdAt = none →
      (updateFlashcard s id p).map (fun r => (r.1.id, r.1.createdAt))
        = some (e.id, e.createdAt)) := by
  refine ⟨?_, ?_, ?_, ?_⟩ <;>
    intro p e he hid hcr <;>
    simp [updateConversation, updateFlashcardSet, updateNote, updateFlashcard,
      he, hid, hcr]

/-- Witness for the amended C5: an id-free, createdAt-free payload on a
stored conversation keeps id "c1" and createdAt 0 and stamps updatedAt 5. -/
theorem update_preserves_identity_witness :
    (updateConversation convStore "c1" { title := some "renamed" } 5).map
        (fun r => (r.1.id, r.1.createdAt, r.1.updatedAt))
      = some ("c1", 0, some 5) := by
  have h := (update_preserves_identity_and_creation convStore "c1" 5).1
    { title := some "renamed" } sampleConversation rfl rfl rfl
  simpa using h

/-- Counterexample to C6 as stated: a provider reply that is not valid JSON
makes JSON.parse throw inside the flashcard-generation handler, and the catch
block answers 500 — the request fails instead of returning an empty array. -/
theorem generation_malformed_reply_fails_request :
    flashcardsGenerate "study this" (some "not json") parseStub
      = .serverError "Failed to generate flashcards" ∧
    (∀ body : JsVal, ¬ (HttpOutcome.serverError "Failed to generate flashcards"
      = HttpOutcome.ok body)) := by
  refine ⟨rfl, ?_⟩
  intro body h
  exact HttpOutcome.noConfusion h

/-- C6 (amended): an empty or null provider reply degrades to an empty result
— an empty flashcards array, a created quiz with an empty question list and
the default title, or the original note content; a reply that fails
JSON.parse instead fails the flashcard/quiz request with a 500 and leaves the
store untouched (note enhancement consumes plain text, so it has no
malformed-reply case). -/
theorem generation_empty_reply_degrades :
    (∀ content reply (parse : String → Option JsVal),
      ¬ content = "" → (reply = none ∨ reply = some "") →
      parse "\x7b\x7d" = some (.obj []) →
      flashcardsGenerate content reply parse = .ok (.arr [])) ∧
    (∀ s subject difficulty reply (parse : String → Option JsVal) quizId now,
      ¬ subject = "" → (reply = none ∨ reply = some "") →
      parse "\x7b\x7d" = some (.obj []) →
      ∃ q : Quiz,
        (quizzesGenerate s subject difficulty reply parse quizId now).1 = .ok q ∧
        q.questions = .arr [] ∧ q.title = .str (subject ++ " Quiz")) ∧
    (∀ s noteId note reply now, getNote s noteId = some note →
      (reply = none ∨ reply = some "") →
      ∃ n2 s2, enhanceNote s noteId reply now = (.ok n2, s2) ∧
        n2.content = note.content) ∧
    (∀ content reply (parse : String → Option JsVal), ¬ content = "" →
      parse (effectiveJson reply) = none →
      flashcardsGenerate content reply parse
        = .serverError "Failed to generate flashcards") ∧
    (∀ s subject difficulty reply (parse : String → Option JsVal) quizId now,
      ¬ subject = "" → parse (effectiveJson reply) = none →
      quizzesGenerate s subject difficulty reply parse quizId now
        = (.serverError "Failed to generate quiz", s)) := by
  refine ⟨?_, ?_, ?_, ?_, ?_⟩
  · intro content reply parse hc hr hp
    have hc' : (content == "") = false := by
      simp [hc]
    rcases hr with rfl | rfl <;>
      simp [flashcardsGenerate, effectiveJson, hc', hp, jsOrElse, jsGet]
  · intro s subject difficulty reply parse quizId now hs hr hp
    have hs' : (subject == "") = false := by
      simp [hs]
    rcases hr with rfl | rfl <;>
      refine ⟨Quiz.mk quizId defaultUserId (.str (subject ++ " Quiz"))
          subject difficulty (.arr []) now, ?_, rfl, rfl⟩ <;>
      simp [quizzesGenerate, effectiveJson, hs', hp, createQuiz, jsOrElse, jsGet]
  · intro s noteId note reply now hn hr
    have hn' : mapGet s.notes noteId = some note := hn
    rcases hr with rfl | rfl <;>
      simp only [enhanceNote, getNote, hn', updateNote] <;>
      exact ⟨_, _, rfl, rfl⟩
  · intro content reply parse hc hp
    have hc' : (content == "") = false := by
      simp [hc]
    simp [flashcardsGenerate, hc', hp]
  · intro s subject difficulty reply parse quizId now hs hp
    have hs' : (subject == "") = false := by
      simp [hs]
    simp [quizzesGenerate, hs', hp]

/-- Witness for the amended C6: a null reply to flashcard generation yields
the empty array under the stub parser. -/
theorem generation_empty_reply_degrades_witness :
    flashcardsGenerate "study this" none parseStub = .ok (.arr []) :=
  generation_empty_reply_degrades.1 "study this" none parseStub
    (by decide) (Or.inl rfl) rfl

/-- C7: each owner-scoped listing returns exactly the records whose owner
field matches (as a permutation of the insertion-ordered filter), ordered
non-increasing by the updated-or-created instant (creation instant for
quizzes, which have no updated instant), and records with equal instants keep
their insertion order. -/
theorem list_by_owner_filtered_sorted_stable (s : Store) (uid : String) :
    (List.Perm (getUserConversations s uid)
       ((mapValues s.conversations).filter (fun c => c.userId == uid)) ∧
     (getUserConversations s uid).Pairwise (fun a b => convKey b ≤ convKey a) ∧
     (∀ t, (getUserConversations s uid).filter (fun c => convKey c == t)
        = ((mapValues s.conversations).filter (fun c => c.userId == uid)).filter
            (fun c => convKey c == t))) ∧
    (List.Perm (getUserFlashcardSets s uid)
       ((mapValues s.flashcardSets).filter (fun c => c.userId == uid)) ∧
     (getUserFlashcardSets s uid).Pairwise (fun a b => setKey b ≤ setKey a) ∧
     (∀ t, (getUserFlashcardSets s uid).filter (fun c => setKey c == t)
        = ((mapValues s.flashcardSets).filter (fun c => c.userId == uid)).filter
            (fun c => setKey c == t))) ∧
    (List.Perm (getUserNotes s uid)
       ((mapValues s.notes).filter (fun c => c.userId == uid)) ∧
     (getUserNotes s uid).Pairwise (fun a b => noteKey b ≤ noteKey a) ∧
     (∀ t, (getUserNotes s uid).filter (fun c => noteKey c == t)
        = ((mapValues s.notes).filter (fun c => c.userId == uid)).filter
            (fun c => noteKey c == t))) ∧
    (List.Perm (getUserQuizzes s uid)
       ((mapValues s.quizzes).filter (fun c => c.userId == uid)) ∧
     (getUserQuizzes s uid).Pairwise
       (fun a b => Quiz.createdAt b ≤ Quiz.createdAt a) ∧
     (∀ t, (getUserQuizzes s uid).filter (fun c => Quiz.createdAt c == t)
        = ((mapValues s.quizzes).filter (fun c => c.userId == uid)).filter
            (fun c => Quiz.createdAt c == t))) := by
  refine ⟨⟨?_, ?_, ?_⟩, ⟨?_, ?_, ?_⟩, ⟨?_, ?_, ?_⟩, ⟨?_, ?_, ?_⟩⟩
  · exact jsSortByKeyDesc_perm convKey _
  · exact jsSortByKeyDesc_sorted convKey _
  · intro t
    apply jsSortByKeyDesc_stable
    intro a b ha hb
    simp only [beq_iff_eq] at ha hb
    rw [ha, hb]
  · exact jsSortByKeyDesc_perm setKey _
  · exact jsSortByKeyDesc_sorted setKey _
  · intro t
    apply jsSortByKeyDesc_stable
    intro a b ha hb
    simp only [beq_iff_eq] at ha hb
    rw [ha, hb]
  · exact jsSortByKeyDesc_perm noteKey _
  · exact jsSortByKeyDesc_sorted noteKey _
  · intro t
    apply jsSortByKeyDesc_stable
    intro a b ha hb
    simp only [beq_iff_eq] at ha hb
    rw [ha, hb]
  · exact jsSortByKeyDesc_perm Quiz.createdAt _
  · exact jsSortByKeyDesc_sorted Quiz.createdAt _
  · intro t
    apply jsSortByKeyDesc_stable
    intro a b ha hb
    simp only [beq_iff_eq] at ha hb
    rw [ha, hb]

/-- C2: when the provider call dispatched for a chat_message frame fails, the
relay emits the typing indicator followed by a single error frame carrying
"Failed to get AI response: " plus the failure details; the inbound user
message stays persisted (the store gains exactly that one entry) and no
assistant-role message is persisted for the frame. -/
theorem relay_provider_failure_no_rollback (s : Store) (f : ChatFrame)
    (provider : ProviderCall → Except String String)
    (userMsgId assistantMsgId : String) (now : Nat) (e : String)
    (htype : f.type = "chat_message")
    (herr : (routeModel f.model f.content provider).1 = .error e)
    (hfresh : List.any s.messages (fun p => p.1 == userMsgId) = false) :
    (wsHandleMessage s (some f) provider userMsgId assistantMsgId now).frames
      = [.typing true, .error ("Failed to get AI response: " ++ e)] ∧
    (wsHandleMessage s (some f) provider userMsgId assistantMsgId now).store.messages
      = s.messages ++ [(userMsgId,
          { id := userMsgId, conversationId := f.conversationId, role := "user",
            content := f.content, attachments := none, createdAt := now })] ∧
    (∀ p, p ∈ (wsHandleMessage s (some f) provider userMsgId
        assistantMsgId now).store.messages →
      p ∈ s.messages ∨ p.2.role = "user") := by
  have hmsgs : (wsHandleMessage s (some f) provider userMsgId assistantMsgId
      now).store.messages = s.messages ++ [(userMsgId,
        { id := userMsgId, conversationId := f.conversationId, role := "user",
          content := f.content, attachments := none, createdAt := now })] := by
    simp only [wsHandleMessage, htype, beq_self_eq_true, if_true, createMessage]
    rw [herr]
    simp [mapSet_fresh _ _ _ hfresh]
  refine ⟨?_, hmsgs, ?_⟩
  · simp only [wsHandleMessage, htype, beq_self_eq_true, if_true]
    rw [herr]
  · intro p hp
    rw [hmsgs] at hp
    rcases List.mem_append.mp hp with h | h
    · exact Or.inl h
    · simp only [List.mem_singleton] at h
      subst h
      exact Or.inr rfl

/-- Witness for C2: a failing provider on a gpt model at the empty store. -/
theorem relay_provider_failure_no_rollback_witness :
    (wsHandleMessage emptyStore (some { sampleFrame with model := "gpt-5" })
        (fun _ => .error "boom") "u1" "a1" 3).frames
      = [.typing true, .error ("Failed to get AI response: " ++ "boom")] ∧
    (wsHandleMessage emptyStore (some { sampleFrame with model := "gpt-5" })
        (fun _ => .error "boom") "u1" "a1" 3).store.messages
      = emptyStore.messages ++ [("u1",
          { id := "u1", conversationId := "c1", role := "user",
            content := "hello", attachments := none, createdAt := 3 })] ∧
    (∀ p, p ∈ (wsHandleMessage emptyStore
        (some { sampleFrame with model := "gpt-5" })
        (fun _ => .error "boom") "u1" "a1" 3).store.messages →
      p ∈ emptyStore.messages ∨ p.2.role = "user") :=
  relay_provider_failure_no_rollback emptyStore
    { sampleFrame with model := "gpt-5" } (fun _ => .error "boom")
    "u1" "a1" 3 "boom" rfl (by rfl) rfl

/-- C3: provider selection is purely by model-name sniffing — a gpt-prefixed
model dispatches exactly one OpenAI call, a claude-prefixed model exactly one
Anthropic call, and any other model dispatches no provider call and succeeds
with the literal "Model not supported", persisted as an assistant message and
delivered in a message frame. -/
theorem relay_provider_selection_by_model (s : Store) (f : ChatFrame)
    (provider : ProviderCall → Except String String)
    (userMsgId assistantMsgId : String) (now : Nat)
    (htype : f.type = "chat_message") :
    (jsStartsWith f.model "gpt" = true →
      (wsHandleMessage s (some f) provider userMsgId assistantMsgId now).calls
        = [.openai f.content]) ∧
    (jsStartsWith f.model "claude" = true →
      (wsHandleMessage s (some f) provider userMsgId assistantMsgId now).calls
        = [.anthropic f.content]) ∧
    (jsStartsWith f.model "gpt" = false → jsStartsWith f.model "claude" = false →
      List.any s.messages (fun p => p.1 == userMsgId) = false →
      List.any s.messages (fun p => p.1 == assistantMsgId) = false →
      (userMsgId == assistantMsgId) = false →
      (wsHandleMessage s (some f) provider userMsgId assistantMsgId now).calls
        = [] ∧
      (wsHandleMessage s (some f) provider userMsgId assistantMsgId now).frames
        = [.typing true, .typing false, .message
            { id := assistantMsgId, conversationId := f.conversationId,
              role := "assistant", content := "Model not supported",
              attachments := none, createdAt := now }] ∧
      (wsHandleMessage s (some f) provider userMsgId
          assistantMsgId now).store.messages
        = s.messages ++ [(userMsgId,
            { id := userMsgId, conversationId := f.conversationId,
              role := "user", content := f.content, attachments := none,
              createdAt := now }),
          (assistantMsgId,
            { id := assistantMsgId, conversationId := f.conversationId,
              role := "assistant", content := "Model not supported",
              attachments := none, createdAt := now })]) := by
  refine ⟨?_, ?_, ?_⟩
  · intro hgpt
    simp only [wsHandleMessage, htype, beq_self_eq_true, if_true, routeModel,
      hgpt]
    cases hr : (provider (.openai f.content)).map
        (fun str => if str == "" then emptyReplyFallback else str) <;>
      simp [hr]
  · intro hclaude
    have hgpt := jsStartsWith_claude_not_gpt f.model hclaude
    simp only [wsHandleMessage, htype, beq_self_eq_true, if_true, routeModel,
      hgpt, hclaude, Bool.false_eq_true, if_false, if_true]
    cases hr : (provider (.anthropic f.content)).map
        (fun str => if str == "" then emptyReplyFallback else str) <;>
      simp [hr]
  · intro hgpt hclaude hfreshU hfreshA hne
    have hfresh2 : List.any (s.messages ++ [(userMsgId,
        { id := userMsgId, conversationId := f.conversationId, role := "user",
          content := f.content, attachments := none,
          createdAt := now : Message })])
        (fun p => p.1 == assistantMsgId) = false := by
      simp [List.any_append, hfreshA, hne]
    simp only [wsHandleMessage, htype, beq_self_eq_true, if_true, routeModel,
      hgpt, hclaude, Bool.false_eq_true, if_false, createMessage]
    refine ⟨trivial, trivial, ?_⟩
    rw [mapSet_fresh _ _ _ hfreshU, mapSet_fresh _ _ _ hfresh2,
      List.append_assoc]
    rfl

/-- Witness for C3: the unsupported model "o3-mini" at the empty store makes
no provider call and delivers "Model not supported" as an assistant message. -/
theorem relay_provider_selection_by_model_witness :
    (wsHandleMessage emptyStore (some sampleFrame)
        (fun _ => .error "unused") "u1" "a1" 3).calls = [] ∧
    (wsHandleMessage emptyStore (some sampleFrame)
        (fun _ => .error "unused") "u1" "a1" 3).frames
      = [.typing true, .typing false, .message
          { id := "a1", conversationId := "c1", role := "assistant",
            content := "Model not supported", attachments := none,
            createdAt := 3 }] ∧
    (wsHandleMessage emptyStore (some sampleFrame)
        (fun _ => .error "unused") "u1" "a1" 3).store.messages
      = emptyStore.messages ++ [("u1",
          { id := "u1", conversationId := "c1", role := "user",
            content := "hello", attachments := none, createdAt := 3 }),
        ("a1",
          { id := "a1", conversationId := "c1", role := "assistant",
            content := "Model not supported", attachments := none,
            createdAt := 3 })] :=
  (relay_provider_selection_by_model emptyStore sampleFrame
      (fun _ => .error "unused") "u1" "a1" 3 rfl).2.2
    (by rfl) (by rfl) rfl rfl (by rfl)

/-- C8: a frame that fails JSON parsing, or whose type is not chat_message,
leaves the store untouched and produces no outgoing frame and no provider
call. -/
theorem relay_ignores_non_chat_frames (s : Store) (parsed : Option ChatFrame)
    (provider : ProviderCall → Except String String)
    (userMsgId assistantMsgId : String) (now : Nat)
    (h : parsed = none ∨ ∃ f, parsed = some f ∧ ¬ f.type = "chat_message") :
    wsHandleMessage s parsed provider userMsgId assistantMsgId now
      = { store := s, frames := [], calls := [] } := by
  rcases h with rfl | ⟨f, rfl, hf⟩
  · rfl
  · have hb : (f.type == "chat_message") = false := by
      simp [hf]
    simp [wsHandleMessage, hb]

/-- Witness for C8: a frame of type "ping" at the empty store. -/
theorem relay_ignores_non_chat_frames_witness :
    wsHandleMessage emptyStore (some { sampleFrame with type := "ping" })
        (fun _ => .ok "unused") "u1" "a1" 3
      = { store := emptyStore, frames := [], calls := [] } :=
  relay_ignores_non_chat_frames emptyStore
    (some { sampleFrame with type := "ping" }) (fun _ => .ok "unused")
    "u1" "a1" 3 (Or.inr ⟨_, rfl, by decide⟩)

/-- C9: creating a video generation yields a pending record with null URLs
and null completion instant; once the delayed completion step fires, fetching
the same identifier yields status completed, both URLs non-null, and a
non-null completion instant. -/
theorem videoGeneration_lifecycle (s : Store) (ins : InsertVideoGeneration)
    (vid : String) (now now2 : Nat) :
    ((createVideoGeneration s vid now ins).1.status = "pending" ∧
     (createVideoGeneration s vid now ins).1.videoUrl = none ∧
     (createVideoGeneration s vid now ins).1.thumbnailUrl = none ∧
     (createVideoGeneration s vid now ins).1.completedAt = none) ∧
    getVideoGeneration
        (fireVideoCompletion (createVideoGeneration s vid now ins).2 vid now2) vid
      = some
          { id := vid, userId := ins.userId, prompt := ins.prompt,
            duration := ins.duration, style := ins.style,
            aspectRatio := ins.aspectRatio, status := "completed",
            videoUrl := some ("https://example.com/videos/" ++ vid ++ ".mp4"),
            thumbnailUrl := some ("https://example.com/thumbnails/" ++ vid ++ ".jpg"),
            createdAt := now, completedAt := some now2 } := by
  refine ⟨⟨rfl, rfl, rfl, rfl⟩, ?_⟩
  have h1 : mapGet (createVideoGeneration s vid now ins).2.videoGenerations vid
      = some (createVideoGeneration s vid now ins).1 :=
    mapGet_mapSet_self _ _ _
  simp only [fireVideoCompletion, updateVideoGeneration, h1]
  simp only [getVideoGeneration, createVideoGeneration, mapGet_mapSet_self]
  rfl

/-- C10: for every accepted chat_message frame — whatever role and
attachments the frame itself carries — the persisted inbound message has role
hard-coded to "user" and null attachments. -/
theorem relay_hardcodes_user_role_and_null_attachments (s : Store)
    (f : ChatFrame) (provider : ProviderCall → Except String String)
    (userMsgId assistantMsgId : String) (now : Nat)
    (htype : f.type = "chat_message")
    (hfreshU : List.any s.messages (fun p => p.1 == userMsgId) = false)
    (hfreshA : List.any s.messages (fun p => p.1 == assistantMsgId) = false)
    (hne : (userMsgId == assistantMsgId) = false) :
    ∃ rest, (wsHandleMessage s (some f) provider userMsgId
        assistantMsgId now).store.messages
      = s.messages ++ ((userMsgId,
          { id := userMsgId, conversationId := f.conversationId,
            role := "user", content := f.content, attachments := none,
            createdAt := now }) :: rest) := by
  have hfresh2 : List.any (s.messages ++ [(userMsgId,
      { id := userMsgId, conversationId := f.conversationId, role := "user",
        content := f.content, attachments := none,
        createdAt := now : Message })])
      (fun p => p.1 == assistantMsgId) = false := by
    simp [List.any_append, hfreshA, hne]
  simp only [wsHandleMessage, htype, beq_self_eq_true, if_true, createMessage]
  cases hr : (routeModel f.model f.content provider).1 with
  | ok aiResponse =>
    refine ⟨[(assistantMsgId,
        { id := assistantMsgId, conversationId := f.conversationId,
          role := "assistant", content := aiResponse, attachments := none,
          createdAt := now })], ?_⟩
    dsimp only
    rw [mapSet_fresh _ _ _ hfreshU, mapSet_fresh _ _ _ hfresh2,
      List.append_assoc]
    rfl
  | error e =>
    refine ⟨[], ?_⟩
    dsimp only
    rw [mapSet_fresh _ _ _ hfreshU]

/-- Witness for C10: a frame claiming role "assistant" and carrying an
attachment is persisted with role "user" and null attachments. -/
theorem relay_hardcodes_user_role_witness :
    ∃ rest, (wsHandleMessage emptyStore (some sampleFrame)
        (fun _ => .ok "fine") "u1" "a1" 3).store.messages
      = emptyStore.messages ++ (("u1",
          { id := "u1", conversationId := "c1", role := "user",
            content := "hello", attachments := none, createdAt := 3 }) :: rest) :=
  relay_hardcodes_user_role_and_null_attachments emptyStore sampleFrame
    (fun _ => .ok "fine") "u1" "a1" 3 rfl rfl rfl (by rfl)
